import Mathlib

/-!
A shallow embedding of the LLM orchestration layer in src/llm_service.py:
provider adapters, the failover orchestrator (LLMService), per-provider usage
accounting, the health check, and the structured-extraction stage of
generate_user_stories — together with theorems settling the specified
behaviour of each part.

Effects outside the program text are made explicit parameters: the outcome of
each backend network call is supplied by an environment function
(String → GenRequest → CallOutcome), and wall-clock timestamps by a Nat tick.
Machine floats of the source are modelled as exact rationals.
-/

/-- The uniform generation request: the (prompt, system_message, temperature,
max_tokens, extra kwargs) argument tuple threaded unchanged through
LLMService.generate_text and every provider's generate_text
(src/llm_service.py lines 460-517).  The open kwargs mapping is not inspected
by any claim and is omitted. -/
structure GenRequest where
  prompt : String
  system_message : Option String := none
  temperature : ℚ := 1/10
  max_tokens : Option Nat := none
deriving Repr, DecidableEq

/-- LLMResponse (src/llm_service.py lines 69-78).  The `metadata` mapping of
arbitrary backend JSON is not inspected by any claim and is omitted. -/
structure LLMResponse where
  content : String
  provider : String
  model : String
  tokens_used : Option Nat := none
  cost : Option ℚ := none
  latency : Option ℚ := none
deriving Repr, DecidableEq

/-- LLMUsageStats (src/llm_service.py lines 81-89).  The last_request
datetime is modelled as a Nat tick. -/
structure LLMUsageStats where
  total_requests : Nat := 0
  total_tokens : Nat := 0
  total_cost : ℚ := 0
  average_latency : ℚ := 0
  error_count : Nat := 0
  last_request : Option Nat := none
deriving Repr, DecidableEq

/-- BaseLLMProvider.update_usage_stats (src/llm_service.py lines 716-727).
Each `if x:` guard in the source is a Python truthiness test: both None and a
zero value skip the branch, hence the explicit `≠ 0` tests here.  The running
average is recomputed from the already-incremented total_requests, exactly as
in the source. -/
def update_usage_stats (stats : LLMUsageStats) (response : LLMResponse) (now : Nat) :
    LLMUsageStats :=
  let s1 := { stats with total_requests := stats.total_requests + 1 }
  let s2 := match response.tokens_used with
    | some t => if t ≠ 0 then { s1 with total_tokens := s1.total_tokens + t } else s1
    | none => s1
  let s3 := match response.cost with
    | some c => if c ≠ 0 then { s2 with total_cost := s2.total_cost + c } else s2
    | none => s2
  let s4 := match response.latency with
    | some l =>
      if l ≠ 0 then
        let total_latency := s3.average_latency * ((s3.total_requests : ℚ) - 1)
        { s3 with average_latency := (total_latency + l) / (s3.total_requests : ℚ) }
      else s3
    | none => s3
  { s4 with last_request := some now }

/-- One registry entry: a constructed, probed adapter.  provider_name is the
hard-coded id each concrete class passes to BaseLLMProvider.__init__
("openai", "azure", "claude", "gemini", "ollama"), model the configured model
id it stamps into every LLMResponse. -/
structure Provider where
  provider_name : String
  model : String
  stats : LLMUsageStats := {}
deriving Repr, DecidableEq

/-- The outcome of one backend transport call (chat_model.agenerate /
apredict), supplied by the environment: the backend either returns text with
optional token/cost/latency accounting, or raises. -/
inductive CallOutcome where
  | success (content : String) (tokens_used : Option Nat) (cost : Option ℚ)
      (latency : Option ℚ)
  | failure (error : String)
deriving Repr, DecidableEq

/-- The error taxonomy raised by the orchestration layer:
RuntimeError("LLM service not initialized"), the ValueError for an
unavailable/unknown provider id, the provider call failure re-raised by the
adapters, the json.JSONDecodeError escaping generate_user_stories, and the
TypeError of len() on a non-sized value. -/
inductive LLMError where
  | notInitialized
  | providerUnavailable (requested : String) (available : List String)
  | providerNotFound (provider : String)
  | providerError (message : String)
  | parseError (badText : String)
  | typeError (message : String)
deriving Repr, DecidableEq

/-- The generate_text body shared by all five concrete adapters
(OpenAIProvider lines 765-819, AzureOpenAIProvider lines 897-942,
ClaudeProvider lines 1008-1048, GeminiProvider lines 186-222, OllamaProvider
lines 288-326): on backend success, build an LLMResponse stamped with the
adapter's own provider id and model, record it via update_usage_stats and
return it; on any exception, increment error_count only and re-raise.
tokens_used/cost/latency of the response come from the backend outcome
(cost where defined is the adapter's estimate, e.g. OpenAIProvider's
_estimate_cost; latency is the measured wall clock). -/
def provider_generate_text (p : Provider) (_req : GenRequest) (outcome : CallOutcome)
    (now : Nat) : Except LLMError LLMResponse × Provider :=
  match outcome with
  | .success content tokens cost latency =>
    let resp : LLMResponse :=
      { content := content, provider := p.provider_name, model := p.model,
        tokens_used := tokens, cost := cost, latency := latency }
    (.ok resp, { p with stats := update_usage_stats p.stats resp now })
  | .failure msg =>
    (.error (.providerError msg),
     { p with stats := { p.stats with error_count := p.stats.error_count + 1 } })

/-- GeminiProvider.generate_streaming's chunking loop
(src/llm_service.py lines 244-249):
`for i in range(0, len(response), chunk_size): yield response[i:i+chunk_size]`
with chunk_size = 20, expressed over the response's character list. -/
def gemini_stream_chunks : List Char → List (List Char)
  | [] => []
  | c :: cs => ((c :: cs).take 20) :: gemini_stream_chunks ((c :: cs).drop 20)
termination_by l => l.length
decreasing_by simp; omega

/-- GeminiProvider.generate_streaming (src/llm_service.py lines 224-253),
success path: the backend's full response string is emitted as fixed-size
chunks of 20 characters, in order. -/
def gemini_generate_streaming (response : String) : List String :=
  (gemini_stream_chunks response.data).map (fun l => String.mk l)

theorem gemini_stream_chunks_flatten (l : List Char) :
    (gemini_stream_chunks l).flatten = l := by
  induction l using gemini_stream_chunks.induct with
  | case1 => rw [gemini_stream_chunks]; rfl
  | case2 c cs ih =>
    rw [gemini_stream_chunks]
    simpa using congrArg (List.take 20 (c :: cs) ++ ·) ih |>.trans
      (List.take_append_drop 20 (c :: cs))

/-- C8: for the Gemini adapter's simulated streaming (fixed chunk size 20),
concatenating all yielded fragments in emission order reproduces the full
response string exactly, for every response string. -/
theorem gemini_streaming_concat (s : String) :
    (gemini_generate_streaming s).foldr (fun a b => a ++ b) "" = s := by
  have key : ∀ l : List Char,
      ((gemini_stream_chunks l).map (fun cl => String.mk cl)).foldr
        (fun a b => a ++ b) "" = String.mk l := by
    intro l
    induction l using gemini_stream_chunks.induct with
    | case1 => rw [gemini_stream_chunks]; rfl
    | case2 c cs ih =>
      rw [gemini_stream_chunks]
      show String.mk ((c :: cs).take 20) ++ _ = _
      rw [ih]
      show String.mk ((c :: cs).take 20 ++ (c :: cs).drop 20) = _
      rw [List.take_append_drop]
  have h := key s.data
  simpa [gemini_generate_streaming] using h

/-- C7: a failing adapter generate_text call increments error_count by one
and leaves total_requests, total_tokens, total_cost, average_latency and
last_request unchanged (src/llm_service.py lines 816-819 and the identical
except-clauses of the other four adapters); the error is re-raised. -/
theorem failing_call_frame (p : Provider) (req : GenRequest) (msg : String) (now : Nat) :
    (provider_generate_text p req (.failure msg) now).1 = .error (.providerError msg) ∧
    (provider_generate_text p req (.failure msg) now).2.stats.error_count
      = p.stats.error_count + 1 ∧
    (provider_generate_text p req (.failure msg) now).2.stats.total_requests
      = p.stats.total_requests ∧
    (provider_generate_text p req (.failure msg) now).2.stats.total_tokens
      = p.stats.total_tokens ∧
    (provider_generate_text p req (.failure msg) now).2.stats.total_cost
      = p.stats.total_cost ∧
    (provider_generate_text p req (.failure msg) now).2.stats.average_latency
      = p.stats.average_latency ∧
    (provider_generate_text p req (.failure msg) now).2.stats.last_request
      = p.stats.last_request := by
  refine ⟨rfl, rfl, rfl, rfl, rfl, rfl, rfl⟩

/-- The orchestrator state (LLMService.__init__, src/llm_service.py lines
361-364): the provider registry — a Python dict whose insertion order is the
failover and default-substitution order, modelled as an ordered list — the
current default provider id, and the ready flag. -/
structure LLMService where
  providers : List Provider := []
  default_provider : String
  initialized : Bool := false
deriving Repr, DecidableEq

/-- Registry lookup `self.providers[name]` / `name in self.providers`. -/
def findProvider (ps : List Provider) (name : String) : Option Provider :=
  ps.find? (fun p => p.provider_name == name)

/-- Registry write-back of a mutated adapter: Python mutates the registered
object in place, modelled by replacing the same-named entry. -/
def setProvider (ps : List Provider) (p : Provider) : List Provider :=
  ps.map (fun q => if q.provider_name == p.provider_name then p else q)

/-- `provider_name = provider or self.default_provider` (line 475): Python's
`or` falls through on a falsy operand, so both None and "" resolve to the
default. -/
def resolveProvider (provider : Option String) (dflt : String) : String :=
  match provider with
  | some p => if p = "" then dflt else p
  | none => dflt

/-- The fallback loop of LLMService.generate_text (src/llm_service.py lines
500-515): walk the remaining provider ids in registry order with the
identical request; return the first success; a failure (including a missing
registry key) is swallowed and the walk continues; when the list is
exhausted, re-raise the original error `orig` (line 517: `raise e`). -/
def tryFallbacks (ps : List Provider) (names : List String) (req : GenRequest)
    (env : String → GenRequest → CallOutcome) (now : Nat) (orig : LLMError) :
    Except LLMError LLMResponse × List Provider :=
  match names with
  | [] => (.error orig, ps)
  | f :: rest =>
    match findProvider ps f with
    | none => tryFallbacks ps rest req env now orig
    | some p =>
      match provider_generate_text p req (env f req) now with
      | (.ok resp, p') => (.ok resp, setProvider ps p')
      | (.error _, p') => tryFallbacks (setProvider ps p') rest req env now orig

/-- LLMService.generate_text (src/llm_service.py lines 460-517): require
ready, resolve the target id, fail with the available-provider list on an
unknown id, call the target adapter; on its failure, only when more than one
adapter is registered, retry every other registered adapter in registry
order with the identical request (first success wins), and re-raise the
original target error when all fail. -/
def service_generate_text (svc : LLMService) (env : String → GenRequest → CallOutcome)
    (now : Nat) (req : GenRequest) (provider : Option String) :
    Except LLMError LLMResponse × LLMService :=
  if svc.initialized then
    let provider_name := resolveProvider provider svc.default_provider
    match findProvider svc.providers provider_name with
    | none =>
      (.error (.providerUnavailable provider_name
        (svc.providers.map (fun p => p.provider_name))), svc)
    | some llm_provider =>
      match provider_generate_text llm_provider req (env provider_name req) now with
      | (.ok resp, p') => (.ok resp, { svc with providers := setProvider svc.providers p' })
      | (.error e, p') =>
        let ps := setProvider svc.providers p'
        if ps.length > 1 then
          let fallback_names :=
            (ps.map (fun p => p.provider_name)).filter (fun n => n != provider_name)
          let step := tryFallbacks ps fallback_names req env now e
          (step.1, { svc with providers := step.2 })
        else (.error e, { svc with providers := ps })
  else (.error .notInitialized, svc)

theorem provider_generate_text_name (p : Provider) (req : GenRequest)
    (o : CallOutcome) (now : Nat) :
    (provider_generate_text p req o now).2.provider_name = p.provider_name := by
  cases o <;> rfl

theorem provider_generate_text_model (p : Provider) (req : GenRequest)
    (o : CallOutcome) (now : Nat) :
    (provider_generate_text p req o now).2.model = p.model := by
  cases o <;> rfl

theorem setProvider_names (ps : List Provider) (p : Provider) :
    (setProvider ps p).map (fun q => q.provider_name)
      = ps.map (fun q => q.provider_name) := by
  induction ps with
  | nil => rfl
  | cons q rest ih =>
    show ((if q.provider_name == p.provider_name then p else q).provider_name)
        :: (setProvider rest p).map (fun r => r.provider_name)
      = q.provider_name :: rest.map (fun r => r.provider_name)
    rw [ih]
    by_cases h : q.provider_name == p.provider_name
    · rw [if_pos h, eq_of_beq h]
    · rw [if_neg h]

theorem setProvider_length (ps : List Provider) (p : Provider) :
    (setProvider ps p).length = ps.length := by
  simp [setProvider]

theorem findProvider_name {ps : List Provider} {name : String} {p : Provider}
    (h : findProvider ps name = some p) : p.provider_name = name := by
  have := List.find?_some h
  exact eq_of_beq this

theorem findProvider_mem {ps : List Provider} {name : String} {p : Provider}
    (h : findProvider ps name = some p) : p ∈ ps :=
  List.mem_of_find?_eq_some h

theorem findProvider_isSome_of_mem {ps : List Provider} {name : String}
    (h : name ∈ ps.map (fun p => p.provider_name)) :
    ∃ p, findProvider ps name = some p := by
  obtain ⟨q, hq, hname⟩ := List.mem_map.mp h
  have : (findProvider ps name).isSome := by
    rw [findProvider, List.find?_isSome]
    exact ⟨q, hq, by simp [hname]⟩
  obtain ⟨p, hp⟩ := Option.isSome_iff_exists.mp this
  exact ⟨p, hp⟩

/-- Elements of a registry updated by setProvider keep name and model drawn
from some element of the original registry. -/
theorem setProvider_preserves_origin {ps ps0 : List Provider} {p' : Provider}
    (hps : ∀ q ∈ ps, ∃ q0 ∈ ps0, q0.provider_name = q.provider_name ∧ q0.model = q.model)
    (hp' : ∃ q0 ∈ ps0, q0.provider_name = p'.provider_name ∧ q0.model = p'.model) :
    ∀ q ∈ setProvider ps p',
      ∃ q0 ∈ ps0, q0.provider_name = q.provider_name ∧ q0.model = q.model := by
  intro q hq
  obtain ⟨r, hr, hrq⟩ := List.mem_map.mp hq
  by_cases h : r.provider_name == p'.provider_name
  · rw [if_pos h] at hrq
    exact hrq ▸ hp'
  · rw [if_neg h] at hrq
    exact hrq ▸ hps r hr

theorem tryFallbacks_all_fail (req : GenRequest) (env : String → GenRequest → CallOutcome)
    (now : Nat) (orig : LLMError) :
    ∀ (names : List String) (ps : List Provider),
      (∀ f ∈ names, ∃ m, env f req = .failure m) →
      (tryFallbacks ps names req env now orig).1 = .error orig := by
  intro names
  induction names with
  | nil => intro ps _; rfl
  | cons f rest ih =>
    intro ps h
    rw [tryFallbacks]
    cases hf : findProvider ps f with
    | none => exact ih ps (fun g hg => h g (List.mem_cons_of_mem _ hg))
    | some p =>
      obtain ⟨msg, hmsg⟩ := h f (List.mem_cons_self f rest)
      rw [hmsg]
      show (tryFallbacks (setProvider ps _) rest req env now orig).1 = .error orig
      exact ih _ (fun g hg => h g (List.mem_cons_of_mem _ hg))

theorem tryFallbacks_first_success (req : GenRequest)
    (env : String → GenRequest → CallOutcome) (now : Nat) (orig : LLMError)
    (ps0 : List Provider) :
    ∀ (pre : List String) (ps : List Provider) (f : String) (post : List String)
      (c : String) (tok : Option Nat) (cost lat : Option ℚ),
      (∀ g ∈ pre, ∃ m, env g req = .failure m) →
      env f req = .success c tok cost lat →
      f ∈ ps.map (fun p => p.provider_name) →
      (∀ q ∈ ps, ∃ q0 ∈ ps0, q0.provider_name = q.provider_name ∧ q0.model = q.model) →
      ∃ q0 ∈ ps0, q0.provider_name = f ∧
        (tryFallbacks ps (pre ++ f :: post) req env now orig).1 =
          .ok { content := c, provider := f, model := q0.model,
                tokens_used := tok, cost := cost, latency := lat } := by
  intro pre
  induction pre with
  | nil =>
    intro ps f post c tok cost lat _ hf hmem hps
    obtain ⟨p, hp⟩ := findProvider_isSome_of_mem hmem
    obtain ⟨q0, hq0mem, hq0name, hq0model⟩ := hps p (findProvider_mem hp)
    refine ⟨q0, hq0mem, hq0name.trans (findProvider_name hp), ?_⟩
    show (tryFallbacks ps (f :: post) req env now orig).1 = _
    rw [tryFallbacks, hp, hf]
    show (Except.ok
        { content := c, provider := p.provider_name, model := p.model,
          tokens_used := tok, cost := cost, latency := lat } :
        Except LLMError LLMResponse) = _
    rw [findProvider_name hp, ← hq0model]
  | cons g pre' ih =>
    intro ps f post c tok cost lat hpre hf hmem hps
    have hrest : ∀ x ∈ pre', ∃ m, env x req = .failure m :=
      fun x hx => hpre x (List.mem_cons_of_mem _ hx)
    show ∃ q0 ∈ ps0, q0.provider_name = f ∧
      (tryFallbacks ps (g :: (pre' ++ f :: post)) req env now orig).1 = _
    rw [tryFallbacks]
    cases hg : findProvider ps g with
    | none => exact ih ps f post c tok cost lat hrest hf hmem hps
    | some p =>
      obtain ⟨msg, hmsg⟩ := hpre g (List.mem_cons_self g pre')
      rw [hmsg]
      show ∃ q0 ∈ ps0, q0.provider_name = f ∧
        (tryFallbacks (setProvider ps
          { p with stats := { p.stats with error_count := p.stats.error_count + 1 } })
          (pre' ++ f :: post) req env now orig).1 = _
      apply ih
      · exact hrest
      · exact hf
      · rw [setProvider_names]; exact hmem
      · apply setProvider_preserves_origin hps
        exact hps p (findProvider_mem hg)

theorem one_lt_length_of_two_mem {l : List String} {a b : String}
    (ha : a ∈ l) (hb : b ∈ l) (hne : a ≠ b) : 1 < l.length := by
  match l with
  | [] => cases ha
  | [x] =>
    rw [List.mem_singleton] at ha hb
    exact absurd (ha.trans hb.symm) hne
  | x :: y :: rest => simp [List.length]

/-- The except-clause effect on the target adapter: error_count += 1
(the adapters' shared failure path). -/
def bumpError (p : Provider) : Provider :=
  { p with stats := { p.stats with error_count := p.stats.error_count + 1 } }

/-- Reduction of LLMService.generate_text when the resolved target adapter's
backend call fails: the registry holds the bumped target, and the fallback
walk runs exactly when more than one adapter is registered. -/
theorem service_generate_text_target_fail_eq (svc : LLMService)
    (env : String → GenRequest → CallOutcome) (now : Nat) (req : GenRequest)
    (provider : Option String) {t : String} {tp : Provider} {emsg : String}
    (hinit : svc.initialized = true)
    (ht : resolveProvider provider svc.default_provider = t)
    (hfound : findProvider svc.providers t = some tp)
    (hfail : env t req = .failure emsg) :
    service_generate_text svc env now req provider =
      (if (setProvider svc.providers (bumpError tp)).length > 1 then
        ((tryFallbacks (setProvider svc.providers (bumpError tp))
            (((setProvider svc.providers (bumpError tp)).map
               (fun p => p.provider_name)).filter (fun n => n != t))
            req env now (.providerError emsg)).1,
         { svc with providers :=
            (tryFallbacks (setProvider svc.providers (bumpError tp))
              (((setProvider svc.providers (bumpError tp)).map
                 (fun p => p.provider_name)).filter (fun n => n != t))
              req env now (.providerError emsg)).2 })
      else (.error (.providerError emsg),
            { svc with providers := setProvider svc.providers (bumpError tp) })) := by
  rw [service_generate_text, if_pos hinit]
  simp only [ht, hfound, hfail, provider_generate_text, bumpError]

/-- C1: when the resolved target adapter's call raises — (a) with exactly one
registered adapter, no fallback is attempted and the target's error
propagates immediately; (b) if every other registered adapter also fails,
the error re-raised to the caller is the original target adapter's error;
(c) otherwise the other registered adapters are retried sequentially in
registry (insertion) order with the identical request and the first success
is returned (src/llm_service.py lines 483-517). -/
theorem generate_text_failover (svc : LLMService)
    (env : String → GenRequest → CallOutcome) (now : Nat) (req : GenRequest)
    (provider : Option String) (t : String) (tp : Provider) (emsg : String)
    (hinit : svc.initialized = true)
    (ht : resolveProvider provider svc.default_provider = t)
    (hfound : findProvider svc.providers t = some tp)
    (hfail : env t req = .failure emsg) :
    (svc.providers.length = 1 →
      (service_generate_text svc env now req provider).1
        = .error (.providerError emsg)) ∧
    ((∀ g ∈ svc.providers.map (fun p => p.provider_name), g ≠ t →
        ∃ m, env g req = .failure m) →
      (service_generate_text svc env now req provider).1
        = .error (.providerError emsg)) ∧
    (∀ (pre : List String) (f : String) (post : List String) (c : String)
        (tok : Option Nat) (cost lat : Option ℚ),
      (svc.providers.map (fun p => p.provider_name)).filter (fun n => n != t)
        = pre ++ f :: post →
      (∀ g ∈ pre, ∃ m, env g req = .failure m) →
      env f req = .success c tok cost lat →
      ∃ q0 ∈ svc.providers, q0.provider_name = f ∧
        (service_generate_text svc env now req provider).1 =
          .ok { content := c, provider := f, model := q0.model,
                tokens_used := tok, cost := cost, latency := lat }) := by
  have hred := service_generate_text_target_fail_eq svc env now req provider
    hinit ht hfound hfail
  refine ⟨?_, ?_, ?_⟩
  · intro hlen1
    rw [hred, if_neg (by rw [setProvider_length]; omega)]
  · intro hall
    by_cases hlen : (setProvider svc.providers (bumpError tp)).length > 1
    · rw [hred, if_pos hlen]
      apply tryFallbacks_all_fail
      intro g hg
      have hg' := List.mem_filter.mp hg
      have hgmem : g ∈ svc.providers.map (fun p => p.provider_name) := by
        rw [← setProvider_names svc.providers (bumpError tp)]
        exact hg'.1
      exact hall g hgmem (by simpa [bne_iff_ne] using hg'.2)
    · rw [hred, if_neg hlen]
  · intro pre f post c tok cost lat hsplit hpre hf
    have hfmemfilter : f ∈ (svc.providers.map
        (fun p => p.provider_name)).filter (fun n => n != t) := by
      rw [hsplit]
      exact List.mem_append_right _ (List.mem_cons_self f post)
    have hfparts := List.mem_filter.mp hfmemfilter
    have hfne : f ≠ t := by simpa [bne_iff_ne] using hfparts.2
    have htmem : t ∈ svc.providers.map (fun p => p.provider_name) :=
      List.mem_map.mpr ⟨tp, findProvider_mem hfound, findProvider_name hfound⟩
    have hlen : (setProvider svc.providers (bumpError tp)).length > 1 := by
      rw [setProvider_length, ← List.length_map svc.providers
        (fun p => p.provider_name)]
      exact one_lt_length_of_two_mem hfparts.1 htmem hfne
    have horig : ∀ q ∈ setProvider svc.providers (bumpError tp),
        ∃ q0 ∈ svc.providers,
          q0.provider_name = q.provider_name ∧ q0.model = q.model := by
      apply setProvider_preserves_origin (fun q hq => ⟨q, hq, rfl, rfl⟩)
      exact ⟨tp, findProvider_mem hfound, rfl, rfl⟩
    obtain ⟨q0, hq0, hname, hres⟩ := tryFallbacks_first_success req env now
      (.providerError emsg) svc.providers pre
      (setProvider svc.providers (bumpError tp)) f post c tok cost lat hpre hf
      (by rw [setProvider_names]; exact hfparts.1) horig
    refine ⟨q0, hq0, hname, ?_⟩
    rw [hred, if_pos hlen]
    show (tryFallbacks _ (((setProvider svc.providers (bumpError tp)).map
      (fun p => p.provider_name)).filter (fun n => n != t)) req env now _).1 = _
    rw [setProvider_names, hsplit]
    exact hres

/-- C9: the provider field of the LLMResponse returned by
LLMService.generate_text names the adapter that actually produced the
content — the resolved target on a direct success, and on a successful
failover the fallback adapter's own provider id and model (a fallback id is
never the requested target's id), so a caller can detect that failover
occurred (src/llm_service.py lines 498-512 return the fallback adapter's
response unmodified; lines 803-814 stamp the producing adapter's id). -/
theorem response_provider_names_producer (svc : LLMService)
    (env : String → GenRequest → CallOutcome) (now : Nat) (req : GenRequest)
    (provider : Option String) (t : String) (tp : Provider)
    (hinit : svc.initialized = true)
    (ht : resolveProvider provider svc.default_provider = t)
    (hfound : findProvider svc.providers t = some tp) :
    (∀ (c : String) (tok : Option Nat) (cost lat : Option ℚ),
      env t req = .success c tok cost lat →
      (service_generate_text svc env now req provider).1 =
        .ok { content := c, provider := t, model := tp.model,
              tokens_used := tok, cost := cost, latency := lat }) ∧
    (∀ (emsg : String) (pre : List String) (f : String) (post : List String)
        (c : String) (tok : Option Nat) (cost lat : Option ℚ),
      env t req = .failure emsg →
      (svc.providers.map (fun p => p.provider_name)).filter (fun n => n != t)
        = pre ++ f :: post →
      (∀ g ∈ pre, ∃ m, env g req = .failure m) →
      env f req = .success c tok cost lat →
      ∃ q0 ∈ svc.providers, q0.provider_name = f ∧ f ≠ t ∧
        (service_generate_text svc env now req provider).1 =
          .ok { content := c, provider := f, model := q0.model,
                tokens_used := tok, cost := cost, latency := lat }) := by
  constructor
  · intro c tok cost lat hsucc
    rw [service_generate_text, if_pos hinit]
    simp only [ht, hfound, hsucc, provider_generate_text]
    rw [findProvider_name hfound]
  · intro emsg pre f post c tok cost lat hfail hsplit hpre hs
    have hfmemfilter : f ∈ (svc.providers.map
        (fun p => p.provider_name)).filter (fun n => n != t) := by
      rw [hsplit]
      exact List.mem_append_right _ (List.mem_cons_self f post)
    have hfne : f ≠ t := by
      simpa [bne_iff_ne] using (List.mem_filter.mp hfmemfilter).2
    obtain ⟨q0, hq0, hname, hres⟩ :=
      (generate_text_failover svc env now req provider t tp emsg
        hinit ht hfound hfail).2.2 pre f post c tok cost lat hsplit hpre hs
    exact ⟨q0, hq0, hname, hfne, hres⟩

/-- Concrete registry fixture: three live adapters in insertion order. -/
def provA : Provider := { provider_name := "openai", model := "gpt-4-turbo-preview" }

def provB : Provider := { provider_name := "claude", model := "claude-3-sonnet" }

def provC : Provider := { provider_name := "gemini", model := "gemini-pro" }

def svcABC : LLMService :=
  { providers := [provA, provB, provC], default_provider := "openai",
    initialized := true }

def reqFix : GenRequest := { prompt := "Say hi" }

/-- Every backend is down; the raised message is the provider's own id. -/
def envAllFail : String → GenRequest → CallOutcome := fun n _ => .failure n

/-- The openai and claude backends are down, gemini answers. -/
def envFailover : String → GenRequest → CallOutcome := fun n _ =>
  if n = "gemini" then .success "gemini says hi" none none none else .failure n

theorem generate_text_failover_witness :
    (service_generate_text svcABC envAllFail 0 reqFix (some "openai")).1
      = .error (.providerError "openai") := by
  exact (generate_text_failover svcABC envAllFail 0 reqFix (some "openai")
    "openai" provA "openai" rfl rfl rfl rfl).2.1 (fun g _ _ => ⟨g, rfl⟩)

theorem response_provider_names_producer_witness :
    (service_generate_text svcABC envFailover 0 reqFix (some "openai")).1
      = .ok { content := "gemini says hi", provider := "gemini",
              model := "gemini-pro", tokens_used := none, cost := none,
              latency := none } := by
  have h := (response_provider_names_producer svcABC envFailover 0 reqFix
    (some "openai") "openai" provA rfl rfl rfl).2 "openai" ["claude"] "gemini" []
    "gemini says hi" none none none rfl (by decide)
    (fun g hg => ⟨g, by fin_cases hg; rfl⟩) rfl
  obtain ⟨q0, hq0mem, hq0name, _hne, hres⟩ := h
  fin_cases hq0mem
  · exact absurd hq0name (by decide)
  · exact absurd hq0name (by decide)
  · exact hres

/-- The probe request of LLMService.health_check (src/llm_service.py line
665): provider.generate_text("Hello", max_tokens=10), temperature left at
its 0.1 default. -/
def healthCheckRequest : GenRequest := { prompt := "Hello", max_tokens := some 10 }

/-- Rendering of str(e) for the unhealthy report; its exact text is
inspected by no claim. -/
def errMessage : LLMError → String
  | .notInitialized => "LLM service not initialized"
  | .providerUnavailable r _ => "Provider " ++ r ++ " not available"
  | .providerNotFound p => "Provider " ++ p ++ " not found"
  | .providerError m => m
  | .parseError t => "Unparseable JSON: " ++ t
  | .typeError m => m

/-- One per-provider entry of the health report (src/llm_service.py lines
668-679): healthy entries carry latency, error_count and total_requests;
unhealthy entries carry the error text and error_count. -/
structure ProviderHealth where
  status : String
  latency : Option ℚ := none
  error : Option String := none
  error_count : Nat
  total_requests : Option Nat := none
deriving Repr, DecidableEq

/-- The aggregate health report (src/llm_service.py lines 655-659). -/
structure HealthStatus where
  initialized : Bool
  default_provider : String
  providers : List (String × ProviderHealth)
deriving Repr, DecidableEq

/-- One iteration of the health_check loop (src/llm_service.py lines
661-679): a real generate_text call against the provider with the "Hello"
probe; the stats fields of the report are read back from the provider after
that call.  The wall clock measured around the call is modelled by the
response's latency. -/
def health_probe (env : String → GenRequest → CallOutcome) (now : Nat)
    (p : Provider) : (String × ProviderHealth) × Provider :=
  match provider_generate_text p healthCheckRequest
      (env p.provider_name healthCheckRequest) now with
  | (.ok resp, p') =>
    ((p.provider_name,
      { status := "healthy", latency := resp.latency, error := none,
        error_count := p'.stats.error_count,
        total_requests := some p'.stats.total_requests }), p')
  | (.error e, p') =>
    ((p.provider_name,
      { status := "unhealthy", latency := none, error := some (errMessage e),
        error_count := p'.stats.error_count, total_requests := none }), p')

/-- LLMService.health_check (src/llm_service.py lines 653-681).  There is no
ready-state guard: the report simply records the initialized flag and the
current default, and probes whatever is registered; loop iterations touch
disjoint providers, so the loop is a map. -/
def service_health_check (svc : LLMService) (env : String → GenRequest → CallOutcome)
    (now : Nat) : HealthStatus × LLMService :=
  ({ initialized := svc.initialized, default_provider := svc.default_provider,
     providers := svc.providers.map (fun p => (health_probe env now p).1) },
   { svc with providers := svc.providers.map (fun p => (health_probe env now p).2) })

theorem update_usage_stats_total_requests (stats : LLMUsageStats)
    (resp : LLMResponse) (now : Nat) :
    (update_usage_stats stats resp now).total_requests = stats.total_requests + 1 := by
  cases h1 : resp.tokens_used <;> cases h2 : resp.cost <;> cases h3 : resp.latency <;>
    simp only [update_usage_stats, h1, h2, h3] <;> split_ifs <;> rfl

theorem update_usage_stats_last_request (stats : LLMUsageStats)
    (resp : LLMResponse) (now : Nat) :
    (update_usage_stats stats resp now).last_request = some now := by
  cases h1 : resp.tokens_used <;> cases h2 : resp.cost <;> cases h3 : resp.latency <;>
    simp only [update_usage_stats, h1, h2, h3] <;> split_ifs <;> rfl

theorem update_usage_stats_average (stats : LLMUsageStats) (resp : LLMResponse)
    (now : Nat) (l : ℚ) (hl : resp.latency = some l) (hne : l ≠ 0) :
    (update_usage_stats stats resp now).average_latency
      = (stats.average_latency * (stats.total_requests : ℚ) + l)
        / ((stats.total_requests : ℚ) + 1) := by
  cases h1 : resp.tokens_used <;> cases h2 : resp.cost <;>
    simp only [update_usage_stats, h1, h2, hl] <;> split_ifs <;>
    first
      | (exact absurd (by assumption) hne)
      | (push_cast; ring_nf)

/-- C10: health_check is not observation-only — each per-provider probe is a
real generate_text call, so a successful probe (with a nonzero measured
latency) increments that provider's total_requests, folds the probe's
latency into average_latency and sets last_request, a failing probe
increments its error_count, and the provider as mutated by the probe is what
the service registry holds afterwards, so stats read later include the
probes (src/llm_service.py lines 661-680 and 716-727). -/
theorem health_check_probes_mutate_stats (svc : LLMService)
    (env : String → GenRequest → CallOutcome) (now : Nat) (p : Provider)
    (hp : p ∈ svc.providers) :
    ((health_probe env now p).2 ∈ (service_health_check svc env now).2.providers) ∧
    (∀ (c : String) (tok : Option Nat) (cost : Option ℚ) (l : ℚ),
      env p.provider_name healthCheckRequest = .success c tok cost (some l) →
      l ≠ 0 →
      (health_probe env now p).2.stats.total_requests = p.stats.total_requests + 1 ∧
      (health_probe env now p).2.stats.average_latency
        = (p.stats.average_latency * (p.stats.total_requests : ℚ) + l)
          / ((p.stats.total_requests : ℚ) + 1) ∧
      (health_probe env now p).2.stats.last_request = some now) ∧
    (∀ msg, env p.provider_name healthCheckRequest = .failure msg →
      (health_probe env now p).2.stats.error_count = p.stats.error_count + 1) := by
  refine ⟨?_, ?_, ?_⟩
  · exact List.mem_map_of_mem (fun q => (health_probe env now q).2) hp
  · intro c tok cost l hs hne
    simp only [health_probe, hs, provider_generate_text]
    exact ⟨update_usage_stats_total_requests _ _ _,
      update_usage_stats_average _ _ _ l rfl hne,
      update_usage_stats_last_request _ _ _⟩
  · intro msg hmsg
    simp only [health_probe, hmsg, provider_generate_text]

def provH : Provider := { provider_name := "ollama", model := "llama2" }

def svcH : LLMService :=
  { providers := [provH], default_provider := "ollama", initialized := true }

def envH : String → GenRequest → CallOutcome := fun _ _ =>
  .success "Hi" none none (some 2)

theorem health_check_probes_mutate_stats_witness :
    (health_probe envH 5 provH).2.stats.total_requests = 1 ∧
    (health_probe envH 5 provH).2.stats.average_latency = 2 ∧
    (health_probe envH 5 provH).2.stats.last_request = some 5 ∧
    (health_probe envH 5 provH).2 ∈ (service_health_check svcH envH 5).2.providers := by
  have h := health_check_probes_mutate_stats svcH envH 5 provH
    (List.mem_singleton.mpr rfl)
  obtain ⟨h1, h2, h3⟩ := h.2.1 "Hi" none none 2 rfl (by norm_num)
  refine ⟨h1, ?_, h3, h.1⟩
  rw [h2]
  show ((0 : ℚ) * ((0 : Nat) : ℚ) + 2) / (((0 : Nat) : ℚ) + 1) = 2
  norm_num

/-- One configured provider slot of LLMService.initialize (src/llm_service.py
lines 372-404): its id and configured model, whether its config passed the
gate `config and config.get("api_key")` on line 391, and what its
initialize() liveness probe returns when attempted. -/
structure ProviderCandidate where
  name : String
  model : String
  has_config_with_key : Bool
  probe_ok : Bool
deriving Repr, DecidableEq

/-- The admission gate of line 391:
`if config and config.get("api_key") or provider_name == LLMProvider.OLLAMA`
— with Python precedence, `(config and config.get("api_key")) or (name ==
"ollama")`. -/
def gateOk (c : ProviderCandidate) : Bool :=
  c.has_config_with_key || (c.name == "ollama")

/-- Construction of the adapter instance for an admitted candidate. -/
def mkProvider (c : ProviderCandidate) : Provider :=
  { provider_name := c.name, model := c.model }

/-- The registration loop of LLMService.initialize (src/llm_service.py lines
389-404): for each gated candidate, probe it; on a true probe append it to
the registry and count it; on a false probe (or a skipped gate) register
nothing. -/
def registerCandidates (ps : List Provider) :
    List ProviderCandidate → List Provider × Nat
  | [] => (ps, 0)
  | c :: rest =>
    if gateOk c && c.probe_ok then
      match registerCandidates (ps ++ [mkProvider c]) rest with
      | (ps', n) => (ps', n + 1)
    else registerCandidates ps rest

/-- LLMService.initialize (src/llm_service.py lines 366-422): run the
registration loop; with zero survivors return False without entering the
ready state; otherwise substitute the first surviving registrant for a
default provider that did not survive (lines 410-414), set the ready flag
and return True.  (The getD alternative of the substitution is unreachable:
a nonzero count guarantees a nonempty registry.) -/
def llmServiceInit (svc : LLMService) (cands : List ProviderCandidate) :
    Bool × LLMService :=
  match registerCandidates svc.providers cands with
  | (provs, count) =>
    if count = 0 then (false, { svc with providers := provs })
    else
      let dflt := if (findProvider provs svc.default_provider).isSome
        then svc.default_provider
        else ((provs.head?).map (fun p => p.provider_name)).getD svc.default_provider
      (true, { svc with providers := provs, default_provider := dflt, initialized := true })

theorem registerCandidates_eq (cands : List ProviderCandidate) :
    ∀ ps : List Provider,
      registerCandidates ps cands
        = (ps ++ (cands.filter (fun c => gateOk c && c.probe_ok)).map mkProvider,
           (cands.filter (fun c => gateOk c && c.probe_ok)).length) := by
  induction cands with
  | nil => intro ps; simp [registerCandidates]
  | cons c rest ih =>
    intro ps
    by_cases h : (gateOk c && c.probe_ok) = true
    · rw [registerCandidates, if_pos h, ih (ps ++ [mkProvider c])]
      simp [List.filter_cons, h]
    · rw [registerCandidates, if_neg h, ih ps]
      simp [List.filter_cons, h]

theorem llmServiceInit_closed (svc : LLMService) (cands : List ProviderCandidate)
    (hps : svc.providers = []) :
    llmServiceInit svc cands =
      (if (cands.filter (fun c => gateOk c && c.probe_ok)).length = 0 then
        (false, { svc with providers :=
          (cands.filter (fun c => gateOk c && c.probe_ok)).map mkProvider })
      else
        (true, { svc with
          providers := (cands.filter (fun c => gateOk c && c.probe_ok)).map mkProvider,
          default_provider :=
            if (findProvider ((cands.filter (fun c => gateOk c && c.probe_ok)).map
                mkProvider) svc.default_provider).isSome
            then svc.default_provider
            else ((((cands.filter (fun c => gateOk c && c.probe_ok)).map
              mkProvider).head?).map (fun p => p.provider_name)).getD
                svc.default_provider,
          initialized := true })) := by
  rw [llmServiceInit, registerCandidates_eq cands svc.providers, hps,
    List.nil_append]

/-- C6: for every initialization run on a fresh service — a candidate whose
probe returns false (or that is never attempted) is never added to the
registry, which holds exactly the gated candidates whose probes succeeded;
the run returns True and enters the ready state exactly when at least one
candidate survives; with zero survivors it returns False and the service
never becomes ready (src/llm_service.py lines 389-418). -/
theorem init_registry_survivors (svc : LLMService) (cands : List ProviderCandidate)
    (hps : svc.providers = []) (hinit : svc.initialized = false) :
    ((llmServiceInit svc cands).2.providers
      = (cands.filter (fun c => gateOk c && c.probe_ok)).map mkProvider) ∧
    ((llmServiceInit svc cands).1 = true ↔
      (cands.filter (fun c => gateOk c && c.probe_ok)) ≠ []) ∧
    ((llmServiceInit svc cands).2.initialized = (llmServiceInit svc cands).1) := by
  rw [llmServiceInit_closed svc cands hps]
  by_cases hc : (cands.filter (fun c => gateOk c && c.probe_ok)).length = 0
  · have hfil : (cands.filter (fun c => gateOk c && c.probe_ok)) = [] :=
      List.length_eq_zero.mp hc
    rw [if_pos hc]
    refine ⟨rfl, ?_, hinit⟩
    constructor
    · intro h; cases h
    · intro h; exact absurd hfil h
  · rw [if_neg hc]
    refine ⟨rfl, ?_, rfl⟩
    constructor
    · intro _ h
      rw [h] at hc
      exact hc rfl
    · intro _; rfl

def svcFresh : LLMService :=
  { providers := [], default_provider := "openai", initialized := false }

def candGate : ProviderCandidate :=
  { name := "openai", model := "gpt-4-turbo-preview",
    has_config_with_key := true, probe_ok := false }

def candOk : ProviderCandidate :=
  { name := "gemini", model := "gemini-pro",
    has_config_with_key := true, probe_ok := true }

theorem init_registry_survivors_witness :
    (llmServiceInit svcFresh [candGate, candOk]).1 = true ∧
    (llmServiceInit svcFresh [candGate, candOk]).2.providers = [mkProvider candOk] ∧
    (llmServiceInit svcFresh [candGate, candOk]).2.initialized = true := by
  have h := init_registry_survivors svcFresh [candGate, candOk] rfl rfl
  have hok : (llmServiceInit svcFresh [candGate, candOk]).1 = true :=
    h.2.1.mpr (by decide)
  refine ⟨hok, ?_, ?_⟩
  · rw [h.1]; decide
  · rw [h.2.2]; exact hok

/-- C5: if the registration loop leaves at least one survivor but the
configured default provider is not among them, initialization still
succeeds, the effective default becomes the first surviving registrant in
registration order, and that effective default is what health_check reports
as default_provider (src/llm_service.py lines 410-414 and 655-659). -/
theorem effective_default_substitution (svc : LLMService)
    (cands : List ProviderCandidate) (hps : svc.providers = [])
    (hnonempty : (cands.filter (fun c => gateOk c && c.probe_ok)) ≠ [])
    (hdef : findProvider
        ((cands.filter (fun c => gateOk c && c.probe_ok)).map mkProvider)
        svc.default_provider = none) :
    ∃ c0, (cands.filter (fun c => gateOk c && c.probe_ok)).head? = some c0 ∧
      (llmServiceInit svc cands).1 = true ∧
      (llmServiceInit svc cands).2.default_provider = c0.name ∧
      ∀ (env : String → GenRequest → CallOutcome) (now : Nat),
        (service_health_check (llmServiceInit svc cands).2 env now).1.default_provider
          = c0.name := by
  obtain ⟨c0, rest, hfil⟩ := List.exists_cons_of_ne_nil hnonempty
  refine ⟨c0, by rw [hfil]; rfl, ?_⟩
  have hc : ¬ (cands.filter (fun c => gateOk c && c.probe_ok)).length = 0 := by
    rw [hfil]; simp
  rw [llmServiceInit_closed svc cands hps, if_neg hc]
  refine ⟨rfl, ?_, ?_⟩
  · show (if (findProvider ((cands.filter (fun c => gateOk c && c.probe_ok)).map
        mkProvider) svc.default_provider).isSome = true then svc.default_provider
      else ((((cands.filter (fun c => gateOk c && c.probe_ok)).map
        mkProvider).head?).map (fun p => p.provider_name)).getD
          svc.default_provider) = c0.name
    rw [hdef, hfil]
    rfl
  · intro env now
    show (if (findProvider ((cands.filter (fun c => gateOk c && c.probe_ok)).map
        mkProvider) svc.default_provider).isSome = true then svc.default_provider
      else ((((cands.filter (fun c => gateOk c && c.probe_ok)).map
        mkProvider).head?).map (fun p => p.provider_name)).getD
          svc.default_provider) = c0.name
    rw [hdef, hfil]
    rfl

theorem effective_default_substitution_witness :
    (llmServiceInit svcFresh [candGate, candOk]).1 = true ∧
    (llmServiceInit svcFresh [candGate, candOk]).2.default_provider = "gemini" ∧
    (service_health_check (llmServiceInit svcFresh [candGate, candOk]).2
      envAllFail 0).1.default_provider = "gemini" := by
  obtain ⟨c0, hc0, hok, hdflt, hhealth⟩ :=
    effective_default_substitution svcFresh [candGate, candOk] rfl
      (by decide) (by decide)
  have hc0' : c0 = candOk := by
    have heval : ([candGate, candOk].filter
        (fun c => gateOk c && c.probe_ok)).head? = some candOk := by decide
    rw [heval] at hc0
    exact (Option.some.inj hc0).symm
  subst hc0'
  exact ⟨hok, hdflt, hhealth envAllFail 0⟩

/-- JSON values as produced by Python's json.loads: objects become dicts
(for a duplicate key the last value wins and the first position is kept),
numbers become int/float — unified here as exact rationals — and the
parser's NaN/Infinity constants are kept symbolic. -/
inductive JsonValue where
  | null
  | bool (b : Bool)
  | num (q : ℚ)
  | nonfinite (s : String)
  | str (s : String)
  | arr (elems : List JsonValue)
  | obj (fields : List (String × JsonValue))
deriving Inhabited

mutual
def jsonDecEq : (a b : JsonValue) → Decidable (a = b)
  | .null, .null => isTrue rfl
  | .bool a, .bool b =>
    match decEq a b with
    | isTrue h => isTrue (by rw [h])
    | isFalse h => isFalse (fun hh => by cases hh; exact h rfl)
  | .num a, .num b =>
    match decEq a b with
    | isTrue h => isTrue (by rw [h])
    | isFalse h => isFalse (fun hh => by cases hh; exact h rfl)
  | .nonfinite a, .nonfinite b =>
    match decEq a b with
    | isTrue h => isTrue (by rw [h])
    | isFalse h => isFalse (fun hh => by cases hh; exact h rfl)
  | .str a, .str b =>
    match decEq a b with
    | isTrue h => isTrue (by rw [h])
    | isFalse h => isFalse (fun hh => by cases hh; exact h rfl)
  | .arr a, .arr b =>
    match jsonDecEqList a b with
    | isTrue h => isTrue (by rw [h])
    | isFalse h => isFalse (fun hh => by cases hh; exact h rfl)
  | .obj a, .obj b =>
    match jsonDecEqObj a b with
    | isTrue h => isTrue (by rw [h])
    | isFalse h => isFalse (fun hh => by cases hh; exact h rfl)
  | .null, .bool _ => isFalse (fun h => by cases h)
  | .null, .num _ => isFalse (fun h => by cases h)
  | .null, .nonfinite _ => isFalse (fun h => by cases h)
  | .null, .str _ => isFalse (fun h => by cases h)
  | .null, .arr _ => isFalse (fun h => by cases h)
  | .null, .obj _ => isFalse (fun h => by cases h)
  | .bool _, .null => isFalse (fun h => by cases h)
  | .bool _, .num _ => isFalse (fun h => by cases h)
  | .bool _, .nonfinite _ => isFalse (fun h => by cases h)
  | .bool _, .str _ => isFalse (fun h => by cases h)
  | .bool _, .arr _ => isFalse (fun h => by cases h)
  | .bool _, .obj _ => isFalse (fun h => by cases h)
  | .num _, .null => isFalse (fun h => by cases h)
  | .num _, .bool _ => isFalse (fun h => by cases h)
  | .num _, .nonfinite _ => isFalse (fun h => by cases h)
  | .num _, .str _ => isFalse (fun h => by cases h)
  | .num _, .arr _ => isFalse (fun h => by cases h)
  | .num _, .obj _ => isFalse (fun h => by cases h)
  | .nonfinite _, .null => isFalse (fun h => by cases h)
  | .nonfinite _, .bool _ => isFalse (fun h => by cases h)
  | .nonfinite _, .num _ => isFalse (fun h => by cases h)
  | .nonfinite _, .str _ => isFalse (fun h => by cases h)
  | .nonfinite _, .arr _ => isFalse (fun h => by cases h)
  | .nonfinite _, .obj _ => isFalse (fun h => by cases h)
  | .str _, .null => isFalse (fun h => by cases h)
  | .str _, .bool _ => isFalse (fun h => by cases h)
  | .str _, .num _ => isFalse (fun h => by cases h)
  | .str _, .nonfinite _ => isFalse (fun h => by cases h)
  | .str _, .arr _ => isFalse (fun h => by cases h)
  | .str _, .obj _ => isFalse (fun h => by cases h)
  | .arr _, .null => isFalse (fun h => by cases h)
  | .arr _, .bool _ => isFalse (fun h => by cases h)
  | .arr _, .num _ => isFalse (fun h => by cases h)
  | .arr _, .nonfinite _ => isFalse (fun h => by cases h)
  | .arr _, .str _ => isFalse (fun h => by cases h)
  | .arr _, .obj _ => isFalse (fun h => by cases h)
  | .obj _, .null => isFalse (fun h => by cases h)
  | .obj _, .bool _ => isFalse (fun h => by cases h)
  | .obj _, .num _ => isFalse (fun h => by cases h)
  | .obj _, .nonfinite _ => isFalse (fun h => by cases h)
  | .obj _, .str _ => isFalse (fun h => by cases h)
  | .obj _, .arr _ => isFalse (fun h => by cases h)

def jsonDecEqList : (a b : List JsonValue) → Decidable (a = b)
  | [], [] => isTrue rfl
  | [], _ :: _ => isFalse (fun h => by cases h)
  | _ :: _, [] => isFalse (fun h => by cases h)
  | a :: as, b :: bs =>
    match jsonDecEq a b with
    | isFalse h => isFalse (fun hh => by injection hh with h1 h2; exact h h1)
    | isTrue h1 =>
      match jsonDecEqList as bs with
      | isTrue h2 => isTrue (by rw [h1, h2])
      | isFalse h2 => isFalse (fun hh => by injection hh with g1 g2; exact h2 g2)

def jsonDecEqObj : (a b : List (String × JsonValue)) → Decidable (a = b)
  | [], [] => isTrue rfl
  | [], _ :: _ => isFalse (fun h => by cases h)
  | _ :: _, [] => isFalse (fun h => by cases h)
  | (k1, v1) :: as, (k2, v2) :: bs =>
    match decEq k1 k2 with
    | isFalse h => isFalse (fun hh => by
        injection hh with h1 h2
        exact h (congrArg Prod.fst h1))
    | isTrue hk =>
      match jsonDecEq v1 v2 with
      | isFalse h => isFalse (fun hh => by
          injection hh with h1 h2
          exact h (congrArg Prod.snd h1))
      | isTrue hv =>
        match jsonDecEqObj as bs with
        | isTrue h2 => isTrue (by rw [hk, hv, h2])
        | isFalse h2 => isFalse (fun hh => by injection hh with g1 g2; exact h2 g2)
end

instance : DecidableEq JsonValue := jsonDecEq

def isJsonWs (c : Char) : Bool :=
  c == ' ' || c == '\t' || c == '\n' || c == '\r'

def skipWs : List Char → List Char
  | [] => []
  | c :: cs => if isJsonWs c then skipWs cs else c :: cs

def isJsonDigit (c : Char) : Bool := c.isDigit

def digitVal (c : Char) : Nat := c.toNat - 48

def digitsToNat (ds : List Char) : Nat :=
  ds.foldl (fun acc c => acc * 10 + digitVal c) 0

def hexVal (c : Char) : Option Nat :=
  if isJsonDigit c then some (digitVal c)
  else if 97 ≤ c.toNat ∧ c.toNat ≤ 102 then some (c.toNat - 97 + 10)
  else if 65 ≤ c.toNat ∧ c.toNat ≤ 70 then some (c.toNat - 65 + 10)
  else none

def escChar (e : Char) : Option Char :=
  if e = '"' then some '"'
  else if e = '\\' then some '\\'
  else if e = '/' then some '/'
  else if e = 'b' then some (Char.ofNat 8)
  else if e = 'f' then some (Char.ofNat 12)
  else if e = 'n' then some '\n'
  else if e = 'r' then some '\r'
  else if e = 't' then some '\t'
  else none

/-- Modelled stdlib: the string scanner of json.loads, after an opening
quote: ordinary characters up to the closing quote, backslash escapes and
4-hex-digit u-escapes; an unescaped control character (strict mode) or an
unterminated string fails.  Fuel only bounds the recursion; callers supply
the input length. -/
def parseStringBody : Nat → List Char → Option (List Char × List Char)
  | 0, _ => none
  | _ + 1, [] => none
  | fuel + 1, c :: rest =>
    if c = '"' then some ([], rest)
    else if c = '\\' then
      match rest with
      | [] => none
      | e :: rest2 =>
        if e = 'u' then
          match rest2 with
          | a :: b :: d :: f :: rest3 =>
            match hexVal a, hexVal b, hexVal d, hexVal f with
            | some x, some y, some z, some w =>
              (parseStringBody fuel rest3).map
                (fun r => (Char.ofNat (((x * 16 + y) * 16 + z) * 16 + w) :: r.1, r.2))
            | _, _, _, _ => none
          | _ => none
        else
          match escChar e with
          | some ec => (parseStringBody fuel rest2).map (fun r => (ec :: r.1, r.2))
          | none => none
    else if c.toNat < 32 then none
    else (parseStringBody fuel rest).map (fun r => (c :: r.1, r.2))

def takeDigits (cs : List Char) : List Char × List Char :=
  (cs.takeWhile isJsonDigit, cs.dropWhile isJsonDigit)

/-- Modelled stdlib: the JSON number grammar accepted by Python json —
-? (0 | [1-9][0-9]*) (.[0-9]+)? ([eE][+-]?[0-9]+)? — evaluated exactly. -/
def parseNumber (cs : List Char) : Option (JsonValue × List Char) :=
  let signStep := match cs with
    | '-' :: r => (true, r)
    | _ => (false, cs)
  match takeDigits signStep.2 with
  | ([], _) => none
  | (intDs, r1) =>
    if intDs.length > 1 ∧ intDs.headD '0' = '0' then none
    else
      let fracStep : Option (List Char × List Char) := match r1 with
        | '.' :: r =>
          match takeDigits r with
          | ([], _) => none
          | (ds, r2) => some (ds, r2)
        | _ => some ([], r1)
      match fracStep with
      | none => none
      | some (fracDs, r2) =>
        let expStep : Option (Int × List Char) := match r2 with
          | e :: r =>
            if e = 'e' ∨ e = 'E' then
              let esignStep : Int × List Char := match r with
                | '+' :: rr => (1, rr)
                | '-' :: rr => (-1, rr)
                | _ => (1, r)
              match takeDigits esignStep.2 with
              | ([], _) => none
              | (eds, r3) => some (esignStep.1 * (digitsToNat eds : Int), r3)
            else some (0, r2)
          | [] => some (0, r2)
        match expStep with
        | none => none
        | some (ex, r3) =>
          let mantissa : Int :=
            Int.ofNat (digitsToNat intDs * 10 ^ fracDs.length + digitsToNat fracDs)
          let signed : Int := if signStep.1 then -mantissa else mantissa
          let q : ℚ := if 0 ≤ ex
            then mkRat (signed * Int.ofNat (10 ^ ex.toNat)) (10 ^ fracDs.length)
            else mkRat signed (10 ^ fracDs.length * 10 ^ (-ex).toNat)
          some (.num q, r3)

/-- Python dict insertion while building an object: an existing key keeps
its position and takes the new value; a fresh key is appended. -/
def objInsert (fields : List (String × JsonValue)) (k : String) (v : JsonValue) :
    List (String × JsonValue) :=
  if fields.any (fun f => f.1 == k) then
    fields.map (fun f => if f.1 == k then (k, v) else f)
  else fields ++ [(k, v)]

mutual
/-- Modelled stdlib: the value grammar of Python's json.loads — strings,
numbers, true/false/null, the NaN/Infinity constants Python accepts by
default, arrays and objects, with JSON whitespace between tokens.  Fuel
bounds the recursion depth; jsonLoads supplies enough for any input. -/
def parseJsonValue : Nat → List Char → Option (JsonValue × List Char)
  | 0, _ => none
  | _ + 1, [] => none
  | fuel + 1, c :: rest =>
    if c = '"' then
      (parseStringBody (rest.length + 1) rest).map
        (fun r => (.str (String.mk r.1), r.2))
    else if c = '[' then
      match skipWs rest with
      | ']' :: r => some (.arr [], r)
      | cs2 => (parseArrayItems fuel cs2).map (fun r => (.arr r.1, r.2))
    else if c = '\x7b' then
      match skipWs rest with
      | '\x7d' :: r => some (.obj [], r)
      | cs2 => (parseObjectItems fuel cs2 []).map (fun r => (.obj r.1, r.2))
    else if c = 't' then
      match rest with
      | 'r' :: 'u' :: 'e' :: r => some (.bool true, r)
      | _ => none
    else if c = 'f' then
      match rest with
      | 'a' :: 'l' :: 's' :: 'e' :: r => some (.bool false, r)
      | _ => none
    else if c = 'n' then
      match rest with
      | 'u' :: 'l' :: 'l' :: r => some (.null, r)
      | _ => none
    else if c = 'N' then
      match rest with
      | 'a' :: 'N' :: r => some (.nonfinite "NaN", r)
      | _ => none
    else if c = 'I' then
      match rest with
      | 'n' :: 'f' :: 'i' :: 'n' :: 'i' :: 't' :: 'y' :: r =>
        some (.nonfinite "Infinity", r)
      | _ => none
    else if c = '-' then
      match rest with
      | 'I' :: 'n' :: 'f' :: 'i' :: 'n' :: 'i' :: 't' :: 'y' :: r =>
        some (.nonfinite "-Infinity", r)
      | _ => parseNumber (c :: rest)
    else if isJsonDigit c then parseNumber (c :: rest)
    else none

def parseArrayItems : Nat → List Char → Option (List JsonValue × List Char)
  | 0, _ => none
  | fuel + 1, cs =>
    match parseJsonValue fuel cs with
    | none => none
    | some (v, r) =>
      match skipWs r with
      | ',' :: r2 => (parseArrayItems fuel (skipWs r2)).map (fun t => (v :: t.1, t.2))
      | ']' :: r2 => some ([v], r2)
      | _ => none

def parseObjectItems : Nat → List Char → List (String × JsonValue) →
    Option (List (String × JsonValue) × List Char)
  | 0, _, _ => none
  | fuel + 1, cs, acc =>
    match cs with
    | '"' :: rest =>
      match parseStringBody (rest.length + 1) rest with
      | none => none
      | some (k, r) =>
        match skipWs r with
        | ':' :: r2 =>
          match parseJsonValue fuel (skipWs r2) with
          | none => none
          | some (v, r3) =>
            match skipWs r3 with
            | ',' :: r4 => parseObjectItems fuel (skipWs r4) (objInsert acc (String.mk k) v)
            | '\x7d' :: r4 => some (objInsert acc (String.mk k) v, r4)
            | _ => none
        | _ => none
    | _ => none
end

/-- Modelled stdlib: json.loads — parse one JSON value and require nothing
but whitespace after it; any other outcome raises JSONDecodeError,
represented as none. -/
def jsonLoads (s : String) : Option JsonValue :=
  match parseJsonValue (2 * s.data.length + 2) (skipWs s.data) with
  | some (v, rest) =>
    match skipWs rest with
    | [] => some v
    | _ => none
  | none => none

/-- Python len(): defined for strings, lists and dicts; a TypeError for
every other JSON value. -/
def jsonLen : JsonValue → Option Nat
  | .str s => some s.length
  | .arr l => some l.length
  | .obj l => some l.length
  | _ => none

/-- Stage 2 of the parsing in LLMService.generate_user_stories
(src/llm_service.py line 621): `re.search(r'\[.*\]', content, re.DOTALL)`.
With DOTALL the dot crosses newlines, so the leftmost-greedy match runs from
the first opening bracket that precedes the last closing bracket of the
text, to that last closing bracket; no such pair means no match. -/
def regexBracketSpan (s : String) : Option String :=
  let cs := s.data
  match cs.findIdx? (fun c => c == '['),
      (cs.reverse.findIdx? (fun c => c == ']')).map (fun k => cs.length - 1 - k) with
  | some i, some j =>
    if i < j then some (String.mk ((cs.drop i).take (j - i + 1))) else none
  | _, _ => none

def balancedSpanAux : Nat → List Char → List Char → Option (List Char)
  | _, _, [] => none
  | depth, acc, c :: rest =>
    if c = '[' then balancedSpanAux (depth + 1) (acc ++ [c]) rest
    else if c = ']' then
      if depth = 1 then some (acc ++ [c])
      else balancedSpanAux (depth - 1) (acc ++ [c]) rest
    else balancedSpanAux depth (acc ++ [c]) rest

/-- Modelled from the spec: "scan for the first balanced `[...]` span
(spanning newlines)" — a linear bracket-depth scan from the first opening
bracket to the position where the depth returns to zero.  Written to the
spec's words, for comparison against regexBracketSpan, which is what the
source actually computes. -/
def firstBalancedBracketSpan (s : String) : Option String :=
  match s.data.dropWhile (fun c => !(c == '[')) with
  | [] => none
  | c :: rest => (balancedSpanAux 1 [c] rest).map String.mk

/-- The system prompt template of generate_user_stories (src/llm_service.py
lines 566-590). -/
def user_stories_system_message : String :=
  String.intercalate "\n"
    [ "",
      "        You are an expert business analyst and product manager. Your task is to generate well-structured user stories from the given requirements.",
      "        ",
      "        Guidelines:",
      "        1. Follow the format: \"As a [type of user], I want [goal] so that [reason]\"",
      "        2. Make stories specific, measurable, and testable",
      "        3. Include acceptance criteria for each story",
      "        4. Assign appropriate priority levels (High, Medium, Low)",
      "        5. Estimate story points (1, 2, 3, 5, 8, 13, 21)",
      "        6. Break down large features into smaller, manageable stories",
      "        7. Ensure stories are independent and deliverable",
      "        ",
      "        Return the response as a JSON array of user stories with the following structure:",
      "        [",
      "            \x7b",
      "                \"title\": \"Brief story title\",",
      "                \"description\": \"As a [user], I want [goal] so that [reason]\",",
      "                \"acceptance_criteria\": [\"Given...\", \"When...\", \"Then...\"],",
      "                \"priority\": \"High|Medium|Low\",",
      "                \"story_points\": 1-21,",
      "                \"labels\": [\"feature\", \"enhancement\", etc.],",
      "                \"epic\": \"Epic name if applicable\"",
      "            \x7d",
      "        ]",
      "        " ]

/-- The user prompt template of generate_user_stories (src/llm_service.py
lines 592-602).  preferences_json stands for the rendered
`json.dumps(project_preferences or \x7b\x7d, indent=2)`; the stdlib
serializer itself is not modelled, as the prompt text only flows into the
backend call.  `if context` is a truthiness test, so an empty context string
also yields an empty line. -/
def user_stories_prompt (requirements : String) (context : Option String)
    (preferences_json : String) : String :=
  String.intercalate "\n"
    [ "",
      "        Requirements:",
      "        " ++ requirements,
      "        ",
      "        " ++ (match context with
        | some ctx => if ctx = "" then "" else "Additional Context: " ++ ctx
        | none => ""),
      "        ",
      "        Project Preferences:",
      "        " ++ preferences_json,
      "        ",
      "        Generate user stories based on these requirements.",
      "        " ]

/-- The response-parsing stage of LLMService.generate_user_stories
(src/llm_service.py lines 613-627): (1) json.loads on the whole content —
on success the parsed value is returned as-is, after the log f-string
evaluates len(user_stories), which raises TypeError for a non-sized value
(caught by the outer handler on lines 629-631 and re-raised); (2) on
JSONDecodeError, re.search(r'\[.*\]', content, re.DOTALL) — when it
matches, json.loads on exactly the matched span, whose JSONDecodeError
propagates through the outer handler's bare `raise`; when it does not
match, log and return []. -/
def parse_user_stories_content (content : String) : Except LLMError JsonValue :=
  match jsonLoads content with
  | some v =>
    match jsonLen v with
    | some _ => .ok v
    | none => .error (.typeError "object has no len()")
  | none =>
    match regexBracketSpan content with
    | some sub =>
      match jsonLoads sub with
      | some v => .ok v
      | none => .error (.parseError sub)
    | none => .ok (.arr [])

/-- LLMService.generate_user_stories (src/llm_service.py lines 556-631):
render the fixed prompt pair, request a temperature-0.1, 4000-token-capped
completion through generate_text (inheriting its failover), then run the
two-stage parse on the raw response text; generate_text errors and parse
errors both propagate through the outer `raise`. -/
def user_stories_request (requirements : String) (context : Option String)
    (preferences_json : String) : GenRequest :=
  { prompt := user_stories_prompt requirements context preferences_json,
    system_message := some user_stories_system_message,
    temperature := 1/10, max_tokens := some 4000 }

def service_generate_user_stories (svc : LLMService)
    (env : String → GenRequest → CallOutcome) (now : Nat)
    (requirements : String) (context : Option String) (preferences_json : String)
    (provider : Option String) : Except LLMError JsonValue × LLMService :=
  let req : GenRequest := user_stories_request requirements context preferences_json
  match service_generate_text svc env now req provider with
  | (.ok response, svc2) => (parse_user_stories_content response.content, svc2)
  | (.error e, svc2) => (.error e, svc2)

/-- The LLMResponse a successful adapter call builds. -/
def successResponse (t : String) (tp : Provider) (c : String) (tok : Option Nat)
    (cost lat : Option ℚ) : LLMResponse :=
  { content := c, provider := t, model := tp.model, tokens_used := tok,
    cost := cost, latency := lat }

/-- The provider as mutated by a successful call's stats update. -/
def recordSuccess (p : Provider) (resp : LLMResponse) (now : Nat) : Provider :=
  { p with stats := update_usage_stats p.stats resp now }

/-- Reduction of LLMService.generate_text when the resolved target adapter's
backend call succeeds. -/
theorem service_generate_text_success_eq (svc : LLMService)
    (env : String → GenRequest → CallOutcome) (now : Nat) (req : GenRequest)
    (provider : Option String) {t : String} {tp : Provider} {c : String}
    {tok : Option Nat} {cost lat : Option ℚ}
    (hinit : svc.initialized = true)
    (ht : resolveProvider provider svc.default_provider = t)
    (hfound : findProvider svc.providers t = some tp)
    (hsucc : env t req = .success c tok cost lat) :
    service_generate_text svc env now req provider =
      (.ok (successResponse t tp c tok cost lat),
       { svc with providers := setProvider svc.providers (recordSuccess tp (successResponse t tp c tok cost lat) now) }) := by
  rw [service_generate_text, if_pos hinit]
  simp only [ht, hfound, hsucc, provider_generate_text, successResponse, recordSuccess]
  rw [findProvider_name hfound]

instance {α β : Type} [DecidableEq α] [DecidableEq β] : DecidableEq (Except α β) := fun x y =>
  match x, y with
  | .ok a, .ok b =>
    match decEq a b with
    | isTrue h => isTrue (by rw [h])
    | isFalse h => isFalse (fun hh => by cases hh; exact h rfl)
  | .error a, .error b =>
    match decEq a b with
    | isTrue h => isTrue (by rw [h])
    | isFalse h => isFalse (fun hh => by cases hh; exact h rfl)
  | .ok _, .error _ => isFalse (fun h => by cases h)
  | .error _, .ok _ => isFalse (fun h => by cases h)

theorem generate_user_stories_parse_eq (svc : LLMService)
    (env : String → GenRequest → CallOutcome) (now : Nat)
    (requirements : String) (context : Option String) (preferences_json : String)
    (provider : Option String) {t : String} {tp : Provider} {c : String}
    {tok : Option Nat} {cost lat : Option ℚ}
    (hinit : svc.initialized = true)
    (ht : resolveProvider provider svc.default_provider = t)
    (hfound : findProvider svc.providers t = some tp)
    (hsucc : env t (user_stories_request requirements context preferences_json)
        = .success c tok cost lat) :
    (service_generate_user_stories svc env now requirements context
      preferences_json provider).1 = parse_user_stories_content c := by
  have hred := service_generate_text_success_eq svc env now
    (user_stories_request requirements context preferences_json)
    provider hinit ht hfound hsucc
  simp only [service_generate_user_stories, hred]
  rfl

/-- C3 (amended): for a response text that is not valid JSON, the outcome of
generate_user_stories splits on the regex fallback — with no `[...]` span
(no opening bracket before the text's last closing bracket) it returns an
empty sequence without raising; with such a span whose substring is itself
unparseable, the json.JSONDecodeError is re-raised to the caller by the
outer handler (src/llm_service.py lines 618-631), contrary to the original
claim that this path never raises. -/
theorem generate_user_stories_unparseable (svc : LLMService)
    (env : String → GenRequest → CallOutcome) (now : Nat)
    (requirements : String) (context : Option String) (preferences_json : String)
    (provider : Option String) (t : String) (tp : Provider) (c : String)
    (tok : Option Nat) (cost lat : Option ℚ)
    (hinit : svc.initialized = true)
    (ht : resolveProvider provider svc.default_provider = t)
    (hfound : findProvider svc.providers t = some tp)
    (hsucc : env t (user_stories_request requirements context preferences_json)
        = .success c tok cost lat)
    (hnoparse : jsonLoads c = none) :
    (regexBracketSpan c = none →
      (service_generate_user_stories svc env now requirements context
        preferences_json provider).1 = .ok (.arr [])) ∧
    (∀ sub, regexBracketSpan c = some sub → jsonLoads sub = none →
      (service_generate_user_stories svc env now requirements context
        preferences_json provider).1 = .error (.parseError sub)) := by
  have hmain := generate_user_stories_parse_eq svc env now requirements context
    preferences_json provider hinit ht hfound hsucc
  constructor
  · intro hspan
    rw [hmain]
    simp only [parse_user_stories_content, hnoparse, hspan]
  · intro sub hspan hsub
    rw [hmain]
    simp only [parse_user_stories_content, hnoparse, hspan, hsub]

def envBadSpan : String → GenRequest → CallOutcome := fun _ _ =>
  .success "[not json]" none none none

/-- Counterexample to C3 as stated: the response text "[not json]" admits no
JSON array from either stage (the whole text fails to parse, and the span
the regex selects is the whole text again, which fails to parse), yet
generate_user_stories raises the decode error to the caller instead of
returning an empty sequence. -/
theorem generate_user_stories_raises_counterexample :
    (service_generate_user_stories svcH envBadSpan 0 "some requirements" none
      "\x7b\x7d" none).1 = .error (.parseError "[not json]") := by decide

def envNoSpan : String → GenRequest → CallOutcome := fun _ _ =>
  .success "no stories here" none none none

theorem generate_user_stories_unparseable_witness :
    (service_generate_user_stories svcH envNoSpan 0 "reqs" none "\x7b\x7d"
      none).1 = .ok (.arr []) := by
  exact (generate_user_stories_unparseable svcH envNoSpan 0 "reqs" none
    "\x7b\x7d" none "ollama" provH "no stories here" none none none
    rfl rfl rfl rfl (by decide)).1 (by decide)

/-- C4 (amended): when the whole response text fails to parse as JSON, the
extraction fallback selects the greedy regex span — from the first opening
bracket that precedes the text's last closing bracket, to that last closing
bracket, crossing newlines — and attempts to parse exactly that substring
(src/llm_service.py lines 620-624); it is not the first balanced `[...]`
span of a linear bracket-depth scan. -/
theorem extraction_fallback_greedy_regex_span (svc : LLMService)
    (env : String → GenRequest → CallOutcome) (now : Nat)
    (requirements : String) (context : Option String) (preferences_json : String)
    (provider : Option String) (t : String) (tp : Provider) (c : String)
    (tok : Option Nat) (cost lat : Option ℚ)
    (hinit : svc.initialized = true)
    (ht : resolveProvider provider svc.default_provider = t)
    (hfound : findProvider svc.providers t = some tp)
    (hsucc : env t (user_stories_request requirements context preferences_json)
        = .success c tok cost lat)
    (hnoparse : jsonLoads c = none) :
    ∀ sub, regexBracketSpan c = some sub →
      (service_generate_user_stories svc env now requirements context
        preferences_json provider).1 =
        (match jsonLoads sub with
         | some v => .ok v
         | none => .error (.parseError sub)) := by
  intro sub hspan
  have hmain := generate_user_stories_parse_eq svc env now requirements context
    preferences_json provider hinit ht hfound hsucc
  rw [hmain]
  simp only [parse_user_stories_content, hnoparse, hspan]

def envTwoSpans : String → GenRequest → CallOutcome := fun _ _ =>
  .success "x[1]y[2]z" none none none

/-- Counterexample to C4 as stated: on "x[1]y[2]z" the first balanced span
is "[1]", which parses as the array [1]; but the code's greedy regex selects
"[1]y[2]" — first opening bracket to last closing bracket — whose parse
fails, so generate_user_stories raises instead of returning that array. -/
theorem extraction_not_first_balanced_span :
    (service_generate_user_stories svcH envTwoSpans 0 "reqs" none "\x7b\x7d"
      none).1 = .error (.parseError "[1]y[2]") ∧
    firstBalancedBracketSpan "x[1]y[2]z" = some "[1]" ∧
    jsonLoads "[1]" = some (.arr [.num 1]) := by
  refine ⟨by decide, by decide, by decide⟩

def envGoodSpan : String → GenRequest → CallOutcome := fun _ _ =>
  .success "Here are stories: [\"a\", \"b\"] done" none none none

theorem extraction_fallback_greedy_regex_span_witness :
    (service_generate_user_stories svcH envGoodSpan 0 "reqs" none "\x7b\x7d"
      none).1 = .ok (.arr [.str "a", .str "b"]) := by
  have h := extraction_fallback_greedy_regex_span svcH envGoodSpan 0 "reqs"
    none "\x7b\x7d" none "ollama" provH "Here are stories: [\"a\", \"b\"] done"
    none none none rfl rfl rfl rfl (by decide) "[\"a\", \"b\"]" (by decide)
  exact h.trans (by decide)

/-- LLMService.generate_streaming (src/llm_service.py lines 519-554): the
same ready/resolution/unavailable checks as generate_text, then the target
adapter's fragment stream passed through; an adapter failure is re-raised
with no cross-provider failover.  The adapter stream outcome is supplied by
streamEnv; in Python the not-initialized error of an async generator only
fires when consumption starts, which the eager Except models as the error
reaching the consumer. -/
def service_generate_streaming (svc : LLMService)
    (streamEnv : String → GenRequest → Except String (List String))
    (req : GenRequest) (provider : Option String) : Except LLMError (List String) :=
  if svc.initialized then
    let provider_name := resolveProvider provider svc.default_provider
    match findProvider svc.providers provider_name with
    | none =>
      .error (.providerUnavailable provider_name
        (svc.providers.map (fun p => p.provider_name)))
    | some _ =>
      match streamEnv provider_name req with
      | .ok fragments => .ok fragments
      | .error msg => .error (.providerError msg)
  else .error .notInitialized

/-- LLMService.get_provider_stats (src/llm_service.py lines 637-651): no
ready-state guard; `if provider:` is a truthiness test, so an empty id falls
through to the all-providers mapping; a named unknown provider raises the
not-found ValueError.  (The single-provider branch returns a
provider/stats wrapper in the source; both shapes are a name-stats
association here.) -/
def service_get_provider_stats (svc : LLMService) (provider : Option String) :
    Except LLMError (List (String × LLMUsageStats)) :=
  match provider with
  | some p =>
    if p = "" then .ok (svc.providers.map (fun q => (q.provider_name, q.stats)))
    else
      match findProvider svc.providers p with
      | some q => .ok [(p, q.stats)]
      | none => .error (.providerNotFound p)
  | none => .ok (svc.providers.map (fun q => (q.provider_name, q.stats)))

/-- C2 (amended): while the service is not ready, generate_text,
generate_streaming and generate_user_stories fail with the not-initialized
error (src/llm_service.py lines 472-473, 531-532, 605-631); but health_check
and get_provider_stats perform no readiness check — health_check returns a
normal status report carrying initialized = false, and get_provider_stats
returns the stats mapping (empty when nothing is registered) — contrary to
the original claim that every operation fails when not ready. -/
theorem not_ready_operations (svc : LLMService)
    (env : String → GenRequest → CallOutcome)
    (streamEnv : String → GenRequest → Except String (List String))
    (now : Nat) (req : GenRequest) (provider : Option String)
    (requirements : String) (context : Option String) (preferences_json : String)
    (hinit : svc.initialized = false) :
    (service_generate_text svc env now req provider).1 = .error .notInitialized ∧
    service_generate_streaming svc streamEnv req provider
      = .error .notInitialized ∧
    (service_generate_user_stories svc env now requirements context
      preferences_json provider).1 = .error .notInitialized ∧
    service_get_provider_stats svc none
      = .ok (svc.providers.map (fun q => (q.provider_name, q.stats))) ∧
    (service_health_check svc env now).1.initialized = false := by
  have hne : ¬ (svc.initialized = true) := by rw [hinit]; exact Bool.false_ne_true
  have hgen : service_generate_text svc env now req provider
      = (.error .notInitialized, svc) := by
    rw [service_generate_text, if_neg hne]
  refine ⟨by rw [hgen], ?_, ?_, rfl, hinit⟩
  · rw [service_generate_streaming, if_neg hne]
  · have hgen2 : service_generate_text svc env now
        (user_stories_request requirements context preferences_json) provider
        = (.error .notInitialized, svc) := by
      rw [service_generate_text, if_neg hne]
    simp only [service_generate_user_stories, hgen2]

/-- Counterexample to C2 as stated: on a service that never initialized,
get_provider_stats completes with a normal (empty) stats mapping rather than
a not-initialized error, and health_check completes with a plain status
report; neither raises. -/
theorem stats_health_no_ready_guard_counterexample :
    service_get_provider_stats svcFresh none = .ok [] ∧
    service_get_provider_stats svcFresh none ≠ .error .notInitialized ∧
    (service_health_check svcFresh envAllFail 0).1
      = { initialized := false, default_provider := "openai", providers := [] } := by
  refine ⟨rfl, ?_, rfl⟩
  intro h
  exact Except.noConfusion h

theorem not_ready_operations_witness :
    (service_generate_text svcFresh envAllFail 0 reqFix none).1
      = .error .notInitialized ∧
    service_get_provider_stats svcFresh none = .ok [] := by
  have h := not_ready_operations svcFresh envAllFail (fun _ _ => .error "down")
    0 reqFix none "reqs" none "\x7b\x7d" rfl
  exact ⟨h.1, h.2.2.2.1⟩
